import Mathlib

/-!
Shallow embedding of the caching and quantitative core of the `my-agent`
repository, together with theorems checking the natural-language
specification against it.

Embedded source files:
* `src/app/sub_agents/news_sentiment_agent/tools.py`
  (`PersistentMemoryStore`, `SentimentDataStore.smart_query` key derivation)
* `src/app/sub_agents/event_impact_agent/tools.py` (`analyze_bond_volatility`
  signal and confidence computation)
* `src/app/sub_agents/simulation_agent/engine.py` and
  `src/app/sub_agents/simulation_agent/tools.py` (`simulate_bond_risk`)

Conventions of the embedding:
* Python `dict`s used as string-keyed maps become association lists with
  `lookupA` / `insertA` (insert replaces an existing binding in place, like a
  Python dict assignment).
* Wall-clock time (`datetime.now()`) is an explicit `now : ℚ` parameter,
  measured in minutes.
* The GCS durable tier is modelled by a `fsAvailable` flag on the store (is
  `self.fs`/`self.memory_file` configured) plus a `writeOk : Bool` parameter
  on each operation saying whether the durable write would succeed this time;
  the persisted document is carried in the state.
* Opaque cached payloads are a type parameter `V`.
-/

namespace MyAgent

/-- Association-list lookup, modelling Python `d.get(k)` / `k in d`. -/
def lookupA {V : Type} : List (String × V) → String → Option V
  | [], _ => none
  | (k, v) :: t, key => if k = key then some v else lookupA t key

/-- Association-list insert, modelling Python `d[k] = v`: replaces an
existing binding, otherwise appends. -/
def insertA {V : Type} : List (String × V) → String → V → List (String × V)
  | [], key, v => [(key, v)]
  | (k, w) :: t, key, v =>
      if k = key then (key, v) :: t else (k, w) :: insertA t key v

theorem lookupA_insertA_self {V : Type} (l : List (String × V)) (k : String) (v : V) :
    lookupA (insertA l k v) k = some v := by
  induction l with
  | nil => simp [insertA, lookupA]
  | cons hd tl ih =>
      obtain ⟨k', w⟩ := hd
      by_cases h : k' = k
      · simp [insertA, h, lookupA]
      · simp [insertA, h, lookupA, ih]

/-! ## `PersistentMemoryStore` (news_sentiment_agent/tools.py, lines 21–232)

The store's in-process state is: the loaded memory document `self.memory`
(fields `analyzed_tickers`, `query_cache`, `insights`,
`statistics = {total_queries, unique_tickers_analyzed, cache_hits}`), the
fast tier `self._in_memory_cache`, `self._dirty`,
`self._operations_since_save`, and the GCS handle. -/

/-- A `query_cache` entry as built by `cache_query` (lines 169–175):
`{"result": ..., "cached_at": datetime.now().isoformat(), "ttl_minutes": ttl}`. -/
structure CacheEntry (V : Type) where
  result : V
  cached_at : ℚ
  ttl_minutes : ℚ
  deriving DecidableEq

/-- The persistable part of the state: the JSON document `self.memory`
(fields not touched by the embedded operations are omitted). -/
structure MemoryDoc (V : Type) where
  analyzed_tickers : List (String × List V)
  query_cache : List (String × CacheEntry V)
  insights : List V
  unique_tickers_analyzed : ℕ
  cache_hits : ℕ
  deriving DecidableEq

/-- Full in-process state of a `PersistentMemoryStore`. -/
structure MemStore (V : Type) where
  memory : MemoryDoc V
  inMemoryCache : List (String × CacheEntry V)
  dirty : Bool
  opsSinceSave : ℕ
  fsAvailable : Bool
  /-- Contents of `session_memory.json` on GCS (`none` = never written). -/
  persisted : Option (MemoryDoc V)
  deriving DecidableEq

/-- `save_memory` (lines 98–130). `writeOk` = the GCS write succeeds.
On success the dirty flag clears and the counter resets; on any failure
(including no GCS configured) the state is unchanged apart from nothing. -/
def saveMemory {V : Type} (writeOk : Bool) (force : Bool) (s : MemStore V) :
    MemStore V :=
  if ¬s.dirty ∧ ¬force then s
  else if ¬s.fsAvailable then s
  else if writeOk then
    { s with dirty := false, opsSinceSave := 0, persisted := some s.memory }
  else s

/-- Flush threshold: `if self._operations_since_save >= 3: self.save_memory()`
(lines 150–151, 183–184, 199–200). -/
def maybeSave {V : Type} (writeOk : Bool) (s : MemStore V) : MemStore V :=
  if s.opsSinceSave ≥ 3 then saveMemory writeOk false s else s

/-- `add_analysis` (lines 132–151). -/
def addAnalysis {V : Type} (writeOk : Bool) (ticker : String) (analysis : V)
    (s : MemStore V) : MemStore V :=
  let prev := (lookupA s.memory.analyzed_tickers ticker).getD []
  let tickers := insertA s.memory.analyzed_tickers ticker (prev ++ [analysis])
  maybeSave writeOk
    { s with
      memory := { s.memory with
        analyzed_tickers := tickers
        unique_tickers_analyzed := tickers.length }
      dirty := true
      opsSinceSave := s.opsSinceSave + 1 }

/-- `cache_query` (lines 169–184): writes the entry into both the durable-tier
map `memory["query_cache"]` and the fast tier `_in_memory_cache`. -/
def cacheQuery {V : Type} (writeOk : Bool) (now : ℚ) (key : String) (v : V)
    (ttl : ℚ) (s : MemStore V) : MemStore V :=
  let e : CacheEntry V := ⟨v, now, ttl⟩
  maybeSave writeOk
    { s with
      memory := { s.memory with query_cache := insertA s.memory.query_cache key e }
      inMemoryCache := insertA s.inMemoryCache key e
      dirty := true
      opsSinceSave := s.opsSinceSave + 1 }

/-- `add_insight` (lines 186–200). -/
def addInsight {V : Type} (writeOk : Bool) (insight : V) (s : MemStore V) :
    MemStore V :=
  maybeSave writeOk
    { s with
      memory := { s.memory with insights := s.memory.insights ++ [insight] }
      dirty := true
      opsSinceSave := s.opsSinceSave + 1 }

/-- `get_cached_query` (lines 153–167): fast tier first (hit bumps
`statistics["cache_hits"]`), then the persistent `query_cache` (hit is
promoted into the fast tier and bumps `cache_hits`), else a miss.
Note the source reads no clock here: the stored `ttl_minutes` is not
consulted. -/
def getCachedQuery {V : Type} (key : String) (s : MemStore V) :
    Option (CacheEntry V) × MemStore V :=
  match lookupA s.inMemoryCache key with
  | some e =>
      (some e, { s with memory := { s.memory with cache_hits := s.memory.cache_hits + 1 } })
  | none =>
      match lookupA s.memory.query_cache key with
      | some e =>
          (some e,
            { s with
              inMemoryCache := insertA s.inMemoryCache key e
              memory := { s.memory with cache_hits := s.memory.cache_hits + 1 } })
      | none => (none, s)

/-- The spec's freshness rule (§4.1): an entry is valid at time `now` iff
`(now - cached_at) in minutes < ttl_minutes`. Modelled from the spec; the
source never evaluates this predicate. -/
def entryValid {V : Type} (now : ℚ) (e : CacheEntry V) : Prop :=
  now - e.cached_at < e.ttl_minutes

instance {V : Type} (now : ℚ) (e : CacheEntry V) : Decidable (entryValid now e) := by
  unfold entryValid; infer_instance

/-- A fresh store as built by `__init__` + `_init_empty_memory` (with GCS
configured iff `fs`). -/
def emptyStore (V : Type) (fs : Bool) : MemStore V :=
  { memory :=
      { analyzed_tickers := [], query_cache := [], insights := []
        unique_tickers_analyzed := 0, cache_hits := 0 }
    inMemoryCache := []
    dirty := false
    opsSinceSave := 0
    fsAvailable := fs
    persisted := none }

/-- The three mutating operations, for claims quantifying over any mix. -/
inductive MutOp (V : Type) where
  | analysis (ticker : String) (v : V)
  | cache (now : ℚ) (key : String) (v : V) (ttl : ℚ)
  | insight (v : V)

/-- Apply one mutating operation. -/
def applyMut {V : Type} (writeOk : Bool) (op : MutOp V) (s : MemStore V) :
    MemStore V :=
  match op with
  | .analysis t v => addAnalysis writeOk t v s
  | .cache now k v ttl => cacheQuery writeOk now k v ttl s
  | .insight v => addInsight writeOk v s

/-- Apply a sequence of reads (`get_cached_query`), keeping only the state. -/
def getMany {V : Type} (keys : List String) (s : MemStore V) : MemStore V :=
  match keys with
  | [] => s
  | k :: ks => getMany ks (getCachedQuery k s).2

/-! ## Cache key derivation (`SentimentDataStore.smart_query`, lines 438–449)

`cache_key = f"{intent}_{json.dumps(filters, sort_keys=True)}_{max_rows}"`.
`json.dumps(..., sort_keys=True)` serializes `sorted(filters.items())`
(CPython's encoder sorts the item pairs; keys of a dict are distinct, so the
pair order below coincides with it) with separators `", "` and `": "`.
Filter values are modelled by their rendered JSON text. -/

/-- Order on filter items used by `sorted(filters.items())`: by key, then by
rendered value (ties on the key cannot arise in a dict). -/
def itemLe (p q : String × String) : Prop :=
  p.1 < q.1 ∨ (p.1 = q.1 ∧ p.2 ≤ q.2)

instance : DecidableRel itemLe := by
  intro p q; unfold itemLe; infer_instance

instance : IsTotal (String × String) itemLe where
  total p q := by
    rcases lt_trichotomy p.1 q.1 with h | h | h
    · exact Or.inl (Or.inl h)
    · rcases le_total p.2 q.2 with h2 | h2
      · exact Or.inl (Or.inr ⟨h, h2⟩)
      · exact Or.inr (Or.inr ⟨h.symm, h2⟩)
    · exact Or.inr (Or.inl h)

instance : IsTrans (String × String) itemLe where
  trans p q r hpq hqr := by
    rcases hpq with h1 | ⟨e1, v1⟩
    · rcases hqr with h2 | ⟨e2, _⟩
      · exact Or.inl (h1.trans h2)
      · exact Or.inl (e2 ▸ h1)
    · rcases hqr with h2 | ⟨e2, v2⟩
      · exact Or.inl (e1 ▸ h2)
      · exact Or.inr ⟨e1.trans e2, v1.trans v2⟩

instance : IsAntisymm (String × String) itemLe where
  antisymm p q hpq hqp := by
    rcases hpq with h1 | ⟨e1, v1⟩
    · rcases hqp with h2 | ⟨e2, _⟩
      · exact absurd h2 (lt_asymm h1)
      · exact absurd h1 (e2 ▸ lt_irrefl q.1)
    · rcases hqp with h2 | ⟨_, v2⟩
      · exact absurd h2 (e1 ▸ lt_irrefl p.1)
      · exact Prod.ext e1 (le_antisymm v1 v2)

/-- `", "` item separator of `json.dumps`. -/
def sepComma : String := ", "

/-- Render one `"key": value` item. -/
def renderItem (p : String × String) : String :=
  "\"" ++ p.1 ++ "\": " ++ p.2

/-- `json.dumps(filters, sort_keys=True)`. -/
def jsonDumpsSorted (filters : List (String × String)) : String :=
  "\x7b" ++ String.intercalate sepComma
      ((List.insertionSort itemLe filters).map renderItem) ++ "\x7d"

/-- Python's rendering of the `max_rows` argument inside the f-string. -/
def renderMaxRows : Option ℕ → String
  | none => "None"
  | some n => toString n

/-- The cache key built at line 442 of `smart_query`. -/
def cacheKey (intent : String) (filters : List (String × String))
    (maxRows : Option ℕ) : String :=
  intent ++ "_" ++ jsonDumpsSorted filters ++ "_" ++ renderMaxRows maxRows

/-! ## `analyze_bond_volatility` signal and confidence
(event_impact_agent/tools.py, lines 969–1033)

The signal and confidence computations are functions of the intermediate
statistics of the rolling `Treasury_Volatility` series:
`volatility_mean`, `volatility_std`, `current_volatility` (all floats),
`len(df_market)` (observed trading days after cleaning), `time_horizon_years`
and `len(fed_dates)`. They are embedded at that boundary. -/

inductive Signal where
  | SELL_VOLATILITY
  | BUY_VOLATILITY
  | HOLD
  deriving DecidableEq

inductive Strength where
  | STRONG
  | MODERATE
  | NEUTRAL
  deriving DecidableEq

/-- `high_vol_threshold = volatility_mean + volatility_std` (line 971). -/
def highVolThreshold (mean std : ℚ) : ℚ := mean + std

/-- The signal branch, lines 1012–1023 (`rationale` strings omitted):
`current > high` gives `SELL_VOLATILITY`/`STRONG` (unconditionally);
`current < mean - 0.5*std` gives `BUY_VOLATILITY`/`MODERATE`;
otherwise `HOLD`/`NEUTRAL`. -/
def tradingSignal (current mean std : ℚ) : Signal × Strength :=
  if current > highVolThreshold mean std then
    (.SELL_VOLATILITY, .STRONG)
  else if current < mean - (5/10) * std then
    (.BUY_VOLATILITY, .MODERATE)
  else
    (.HOLD, .NEUTRAL)

/-- `data_completeness = len(df_market) / (time_horizon_years * 252)`
(line 1026). -/
def dataCompleteness (nDays years : ℕ) : ℚ :=
  (nDays : ℚ) / ((years : ℚ) * 252)

/-- `sample_confidence = min(1.0, data_completeness)` (line 1027). -/
def sampleConfidence (nDays years : ℕ) : ℚ :=
  min 1 (dataCompleteness nDays years)

/-- `event_coverage = min(1.0, len(fed_dates) / (time_horizon_years * 8))`
(line 1029). -/
def eventCoverage (nFed years : ℕ) : ℚ :=
  min 1 ((nFed : ℚ) / ((years : ℚ) * 8))

/-- `volatility_consistency = 1 - (volatility_std / volatility_mean) if
volatility_mean > 0 else 0.5` (line 1031). No clamping is applied. -/
def volatilityConsistency (mean std : ℚ) : ℚ :=
  if mean > 0 then 1 - std / mean else 5/10

/-- `overall_confidence = sample_confidence*0.4 + event_coverage*0.3 +
volatility_consistency*0.3` (line 1033). -/
def overallConfidence (sc ec vc : ℚ) : ℚ :=
  sc * (4/10) + ec * (3/10) + vc * (3/10)

/-! ## Monte Carlo simulator (simulation_agent/engine.py, tools.py)

Randomness: `np.random.normal(0, sigma, SIM_COUNT)` is embedded as an
explicit ambient stream of standard-normal draws `draws : String → ℕ → ℚ`
(per data column, per index), each scaled by `sigma` — a normal variate with
standard deviation `sigma` is exactly `sigma` times a standard one. `pandas`
`.std()` (an irrational square root in general) is carried as an oracle
`stdev` in the environment; theorems that need its value characterize it by
`IsStdev`. -/

/-- `SIM_COUNT = 10000` (engine.py line 11). -/
def SIM_COUNT : ℕ := 10000

/-- `STRESS_REGIMES` (engine.py lines 13–17). -/
def STRESS_REGIMES : String → Option ℚ
  | "calm" => some (7/10)
  | "normal" => some 1
  | "stress" => some (18/10)
  | _ => none

/-- `TENOR_MAP` (engine.py lines 19–23). -/
def TENOR_MAP : String → Option String
  | "5Y" => some "Treasury Yield 5 Years (^FVX)"
  | "10Y" => some "Treasury Yield 10 Years (^TNX)"
  | "30Y" => some "Treasury Yield 30 Years (^TYX)"
  | _ => none

/-- `series.diff().dropna()`: consecutive differences. -/
def listDiff : List ℚ → List ℚ
  | [] => []
  | [_] => []
  | x :: y :: t => (y - x) :: listDiff (y :: t)

/-- Mean of a list (0 for the empty list, via division by zero). -/
def listMean (xs : List ℚ) : ℚ := xs.sum / (xs.length : ℚ)

/-- `pandas` sample variance (`ddof=1`). -/
def sampleVar (xs : List ℚ) : ℚ :=
  ((xs.map fun x => (x - listMean xs) ^ 2).sum) / ((xs.length : ℚ) - 1)

/-- `s` is the value of `pandas` `.std()` on `xs` (sample standard
deviation, `ddof=1`). -/
def IsStdev (xs : List ℚ) (s : ℚ) : Prop := 0 ≤ s ∧ s ^ 2 = sampleVar xs

/-- Environment of the simulator: the cleaned numeric series per CSV column,
the `.std()` oracle, and the ambient standard-normal draw stream. -/
structure SimEnv where
  data : String → List ℚ
  stdev : List ℚ → ℚ
  draws : String → ℕ → ℚ

/-- `simulate_yield_changes` (engine.py lines 32–39) after the
`TENOR_MAP`/`STRESS_REGIMES` lookups: `sigma = yield_changes.std() * mult`,
then `SIM_COUNT` normal draws of standard deviation `sigma`. -/
def simulateYieldChanges (env : SimEnv) (col : String) (mult : ℚ) : List ℚ :=
  let sigma := env.stdev (listDiff (env.data col)) * mult
  (List.range SIM_COUNT).map fun k => sigma * env.draws col k

/-- Python `round` / `np.round` to an integer: round-half-to-even. -/
def pyRound (x : ℚ) : ℤ :=
  if x - (⌊x⌋ : ℚ) < 5 / 10 then ⌊x⌋
  else if 5 / 10 < x - (⌊x⌋ : ℚ) then ⌊x⌋ + 1
  else if ⌊x⌋ % 2 = 0 then ⌊x⌋ else ⌊x⌋ + 1

/-- `round(x, 2)`. -/
def round2 (x : ℚ) : ℚ := (pyRound (x * 100) : ℚ) / 100

/-- `np.ndarray.min` on a nonempty array (0 on the impossible empty case). -/
def listMin : List ℚ → ℚ
  | [] => 0
  | x :: xs => xs.foldl min x

/-- `np.ndarray.max` on a nonempty array (0 on the impossible empty case). -/
def listMax : List ℚ → ℚ
  | [] => 0
  | x :: xs => xs.foldl max x

/-- Integer part of the sorted position `0.05*(n-1)` used by
`np.percentile(_, 5)`. -/
def pctIndex (n : ℕ) : ℕ := 5 * (n - 1) / 100

/-- Fractional part of the sorted position `0.05*(n-1)`. -/
def pctFrac (n : ℕ) : ℚ := ((5 * (n - 1) : ℕ) : ℚ) / 100 - ((pctIndex n : ℕ) : ℚ)

/-- Linear interpolation of `np.percentile(_, 5)` over an already sorted
nonempty array `s`. -/
def pctInterp (s : List ℚ) : ℚ :=
  s.getD (pctIndex s.length) 0 +
    pctFrac s.length *
      (s.getD (pctIndex s.length + 1) (s.getD (pctIndex s.length) 0) -
        s.getD (pctIndex s.length) 0)

/-- `np.percentile(xs, 5)` with the default linear interpolation. -/
def percentile5 (xs : List ℚ) : ℚ :=
  if (List.insertionSort (fun a b : ℚ => a ≤ b) xs).length = 0 then 0
  else pctInterp (List.insertionSort (fun a b : ℚ => a ≤ b) xs)

/-- Per-tenor metrics block of `compute_metrics` (engine.py lines 42–50). -/
structure SimMetrics where
  VaR_95_YieldBps : ℚ
  YieldRangeLow_Bps : ℚ
  YieldRangeHigh_Bps : ℚ
  SimCount : ℕ
  deriving DecidableEq

/-- `compute_metrics` (engine.py lines 42–50). -/
def computeMetrics (samples : List ℚ) : SimMetrics :=
  { VaR_95_YieldBps := round2 (percentile5 samples * 10000)
    YieldRangeLow_Bps := round2 (listMin samples * 10000)
    YieldRangeHigh_Bps := round2 (listMax samples * 10000)
    SimCount := SIM_COUNT }

/-- One entry of the `results` dict of `simulate_bond_risk`. -/
inductive TenorOutcome where
  | err (msg : String)
  | metrics (m : SimMetrics)
  deriving DecidableEq

/-- The non-computational `interpretation` block (tools.py lines 53–68). -/
structure Interp where
  market_regime : String
  confidence_score : Option ℚ
  risk_level : String
  guidance : String
  deriving DecidableEq

/-- Top-level return value of `simulate_bond_risk`: either the
`{"status": "error", ...}` dict or the `{"status": "ok", ...}` dict. -/
inductive SimResult where
  | globalError (message : String)
  | ok (simulation_results : List (String × TenorOutcome)) (interp : Interp)
  deriving DecidableEq

/-- Message of the whole-request regime validation error (tools.py line 30). -/
def invalidRegimeMsg (regime : String) : String :=
  "Invalid RegimeHint '" ++ regime ++ "'. Must be one of ['calm', 'normal', 'stress']"

/-- Message of the per-tenor validation error (tools.py line 38). -/
def invalidTenorMsg (tenor : String) : String :=
  "Invalid tenor '" ++ tenor ++ "'. Must be one of ['5Y', '10Y', '30Y']"

/-- `risk_level` of the interpretation block. -/
def riskLevelOf (regime : String) : String :=
  if regime = "stress" then "high"
  else if regime = "normal" then "moderate"
  else "low"

/-- `guidance` of the interpretation block. -/
def guidanceOf (regime : String) : String :=
  if regime = "stress" then "Downside yield risk is elevated across the curve."
  else if regime = "normal" then "Yield risk is present but contained."
  else "Yield volatility remains subdued."

/-- `simulate_bond_risk` (tools.py lines 9–74). An invalid `RegimeHint`
aborts the whole request; an invalid tenor yields a per-tenor error entry
and the loop continues. The `try`/`except` around the engine call only
catches data-loading failures, which the total environment excludes. -/
def simulate_bond_risk (env : SimEnv) (ForecastedYields : List (String × ℚ))
    (RegimeHint : String) (ConfidenceScore : Option ℚ) : SimResult :=
  match STRESS_REGIMES RegimeHint with
  | none => .globalError (invalidRegimeMsg RegimeHint)
  | some mult =>
      .ok
        (ForecastedYields.map fun p =>
          (p.1,
            match TENOR_MAP p.1 with
            | none => .err (invalidTenorMsg p.1)
            | some col =>
                .metrics (computeMetrics (simulateYieldChanges env col mult))))
        { market_regime := RegimeHint
          confidence_score := ConfidenceScore
          risk_level := riskLevelOf RegimeHint
          guidance := guidanceOf RegimeHint }

/-- Reference per-tenor computation following the spec's words (§4.3 steps
2–4): `sigma = stdev × regime_multiplier`; `N = 10000` samples of a
zero-mean normal with standard deviation `sigma` (the standard-normal
stream `z` scaled by `sigma`); `VaR_95_bps = 5th_percentile(samples) ×
10000`; `yield_range_bps = [min×10000, max×10000]`; `sim_count = N`. The
spec states no rounding. -/
def specTenorMetrics (s mult : ℚ) (z : ℕ → ℚ) : SimMetrics :=
  { VaR_95_YieldBps :=
      percentile5 ((List.range 10000).map fun k => s * mult * z k) * 10000
    YieldRangeLow_Bps :=
      listMin ((List.range 10000).map fun k => s * mult * z k) * 10000
    YieldRangeHigh_Bps :=
      listMax ((List.range 10000).map fun k => s * mult * z k) * 10000
    SimCount := 10000 }

/-- The amendment to the reference computation: each reported basis-point
value additionally rounded to 2 decimal places, as `round(_, 2)` in
`compute_metrics` does. -/
def roundMetrics (m : SimMetrics) : SimMetrics :=
  { VaR_95_YieldBps := round2 m.VaR_95_YieldBps
    YieldRangeLow_Bps := round2 m.YieldRangeLow_Bps
    YieldRangeHigh_Bps := round2 m.YieldRangeHigh_Bps
    SimCount := m.SimCount }

/-- Projection picking the `VaR_95_YieldBps` of the first tenor result. -/
def firstVaR : SimResult → ℚ
  | .ok ((_, .metrics m) :: _) _ => m.VaR_95_YieldBps
  | _ => 0

/-- A trivial simulator environment. -/
def envZero : SimEnv := ⟨fun _ => [], fun _ => 0, fun _ _ => 0⟩

/-- A yield history whose daily differences are `[1, 0, -1]`, of sample
standard deviation exactly `1`, with a constant ambient draw stream
`1/30000`. -/
def envThird : SimEnv := ⟨fun _ => [0, 1, 1, 0], fun _ => 1, fun _ _ => 1 / 30000⟩

/-- A store whose durable-tier `query_cache` holds a key the fast tier lacks. -/
def storeDurable : MemStore ℕ :=
  { emptyStore ℕ true with
    memory := { (emptyStore ℕ true).memory with
      query_cache := [("q", ⟨7, 0, 60⟩)] } }

/-- A store whose fast tier holds one entry. -/
def storeFast : MemStore ℕ :=
  { emptyStore ℕ true with inMemoryCache := [("k", ⟨5, 0, 60⟩)] }

/-! ## Helper lemmas -/

theorem saveMemory_notOk {V : Type} (force : Bool) (s : MemStore V) :
    saveMemory false force s = s := by
  unfold saveMemory
  split_ifs <;> simp_all

theorem maybeSave_notOk {V : Type} (s : MemStore V) : maybeSave false s = s := by
  unfold maybeSave
  split_ifs with h
  · exact saveMemory_notOk false s
  · rfl

theorem maybeSave_lt {V : Type} (wk : Bool) (s : MemStore V)
    (h : s.opsSinceSave < 3) : maybeSave wk s = s := by
  unfold maybeSave
  rw [if_neg (by omega)]

theorem maybeSave_ge_ok {V : Type} (s : MemStore V) (h : 3 ≤ s.opsSinceSave)
    (hd : s.dirty = true) (hf : s.fsAvailable = true) :
    maybeSave true s =
      { s with dirty := false, opsSinceSave := 0, persisted := some s.memory } := by
  unfold maybeSave saveMemory
  rw [if_pos h]
  split_ifs with h1 h2 <;> simp_all

theorem maybeSave_inMemoryCache {V : Type} (wk : Bool) (s : MemStore V) :
    (maybeSave wk s).inMemoryCache = s.inMemoryCache := by
  unfold maybeSave saveMemory
  split_ifs <;> rfl

theorem maybeSave_memory {V : Type} (wk : Bool) (s : MemStore V) :
    (maybeSave wk s).memory = s.memory := by
  unfold maybeSave saveMemory
  split_ifs <;> rfl

theorem applyMut_eq_maybeSave {V : Type} (wk : Bool) (op : MutOp V)
    (s : MemStore V) :
    ∃ s' : MemStore V, applyMut wk op s = maybeSave wk s' ∧
      s'.dirty = true ∧ s'.opsSinceSave = s.opsSinceSave + 1 ∧
      s'.fsAvailable = s.fsAvailable := by
  cases op with
  | analysis t v => exact ⟨_, rfl, rfl, rfl, rfl⟩
  | cache now k v ttl => exact ⟨_, rfl, rfl, rfl, rfl⟩
  | insight v => exact ⟨_, rfl, rfl, rfl, rfl⟩

theorem getCachedQuery_frame {V : Type} (k : String) (s : MemStore V) :
    ((getCachedQuery k s).2).dirty = s.dirty ∧
    ((getCachedQuery k s).2).opsSinceSave = s.opsSinceSave ∧
    ((getCachedQuery k s).2).persisted = s.persisted ∧
    ((getCachedQuery k s).2).fsAvailable = s.fsAvailable ∧
    ((getCachedQuery k s).2).memory.query_cache = s.memory.query_cache := by
  unfold getCachedQuery
  cases h1 : lookupA s.inMemoryCache k with
  | some e => simp
  | none => cases h2 : lookupA s.memory.query_cache k <;> simp

theorem getMany_frame {V : Type} (ks : List String) (s : MemStore V) :
    (getMany ks s).dirty = s.dirty ∧
    (getMany ks s).opsSinceSave = s.opsSinceSave ∧
    (getMany ks s).persisted = s.persisted := by
  induction ks generalizing s with
  | nil => exact ⟨rfl, rfl, rfl⟩
  | cons k ks ih =>
      obtain ⟨h1, h2, h3, _, _⟩ := getCachedQuery_frame k s
      obtain ⟨g1, g2, g3⟩ := ih (getCachedQuery k s).2
      exact ⟨g1.trans h1, g2.trans h2, g3.trans h3⟩

theorem insertionSort_eq_of_perm {l₁ l₂ : List (String × String)}
    (h : l₁.Perm l₂) :
    List.insertionSort itemLe l₁ = List.insertionSort itemLe l₂ :=
  List.eq_of_perm_of_sorted
    (((List.perm_insertionSort itemLe l₁).trans h).trans
      (List.perm_insertionSort itemLe l₂).symm)
    (List.sorted_insertionSort itemLe l₁)
    (List.sorted_insertionSort itemLe l₂)

theorem getD_of_all_eq {l : List ℚ} {c : ℚ} (h : ∀ x ∈ l, x = c) (d : ℚ)
    {i : ℕ} (hi : i < l.length) : l.getD i d = c := by
  rw [List.getD_eq_getElem l d hi]
  exact h _ (List.getElem_mem hi)

theorem foldl_min_all_eq {c : ℚ} :
    ∀ (l : List ℚ) (acc : ℚ), (∀ x ∈ l, x = c) → acc = c →
      l.foldl min acc = c := by
  intro l
  induction l with
  | nil => intro acc _ ha; exact ha
  | cons y t ih =>
      intro acc h ha
      have hy : y = c := h y (by simp)
      refine ih (min acc y) (fun x hx => h x (by simp [hx])) ?_
      rw [ha, hy, min_self]

theorem foldl_max_all_eq {c : ℚ} :
    ∀ (l : List ℚ) (acc : ℚ), (∀ x ∈ l, x = c) → acc = c →
      l.foldl max acc = c := by
  intro l
  induction l with
  | nil => intro acc _ ha; exact ha
  | cons y t ih =>
      intro acc h ha
      have hy : y = c := h y (by simp)
      refine ih (max acc y) (fun x hx => h x (by simp [hx])) ?_
      rw [ha, hy, max_self]

theorem listMin_all_eq {xs : List ℚ} {c : ℚ} (hne : xs ≠ [])
    (h : ∀ x ∈ xs, x = c) : listMin xs = c := by
  cases xs with
  | nil => exact absurd rfl hne
  | cons x t =>
      exact foldl_min_all_eq t x (fun y hy => h y (by simp [hy])) (h x (by simp))

theorem listMax_all_eq {xs : List ℚ} {c : ℚ} (hne : xs ≠ [])
    (h : ∀ x ∈ xs, x = c) : listMax xs = c := by
  cases xs with
  | nil => exact absurd rfl hne
  | cons x t =>
      exact foldl_max_all_eq t x (fun y hy => h y (by simp [hy])) (h x (by simp))

theorem pctIndex_lt {n : ℕ} (hn : n ≠ 0) : pctIndex n < n := by
  unfold pctIndex
  have h1 : 5 * (n - 1) / 100 ≤ 5 * (n - 1) / 5 :=
    Nat.div_le_div_left (by norm_num) (by norm_num)
  have h2 : 5 * (n - 1) / 5 = n - 1 := Nat.mul_div_cancel_left _ (by norm_num)
  omega

theorem pctInterp_all_eq {s : List ℚ} {c : ℚ} (hn : s.length ≠ 0)
    (h : ∀ x ∈ s, x = c) : pctInterp s = c := by
  unfold pctInterp
  have hi := pctIndex_lt hn
  rw [getD_of_all_eq h 0 hi]
  by_cases hib : pctIndex s.length + 1 < s.length
  · rw [getD_of_all_eq h c hib]; ring
  · rw [List.getD_eq_default _ _ (by omega)]; ring

theorem percentile5_all_eq {xs : List ℚ} {c : ℚ} (hne : xs ≠ [])
    (h : ∀ x ∈ xs, x = c) : percentile5 xs = c := by
  unfold percentile5
  have hperm := List.perm_insertionSort (fun a b : ℚ => a ≤ b) xs
  have hmem : ∀ x ∈ List.insertionSort (fun a b : ℚ => a ≤ b) xs, x = c :=
    fun x hx => h x (hperm.subset hx)
  have hn : (List.insertionSort (fun a b : ℚ => a ≤ b) xs).length ≠ 0 := by
    rw [hperm.length_eq]
    exact (List.length_pos.mpr hne).ne'
  rw [if_neg hn]
  exact pctInterp_all_eq hn hmem

theorem pyRound_eq_of_floor {x : ℚ} {n : ℤ} (h1 : ⌊x⌋ = n)
    (h2 : x - (n : ℚ) < 5 / 10) : pyRound x = n := by
  unfold pyRound
  rw [h1, if_pos h2]

theorem pyRound_intCast (n : ℤ) : pyRound (n : ℚ) = n :=
  pyRound_eq_of_floor (Int.floor_intCast n) (by simp)

theorem round2_intCast (n : ℤ) : round2 (n : ℚ) = (n : ℚ) := by
  unfold round2
  rw [show (n : ℚ) * 100 = ((n * 100 : ℤ) : ℚ) by push_cast; ring,
    pyRound_intCast]
  push_cast
  rw [mul_div_assoc]
  norm_num

theorem round2_zero : round2 0 = 0 := by
  simpa using round2_intCast 0

theorem round2_ten_thousand : round2 10000 = 10000 := by
  simpa using round2_intCast 10000

theorem round2_one_third : round2 (1 / 3) = 33 / 100 := by
  unfold round2
  have hf : ⌊(100 / 3 : ℚ)⌋ = 33 := by
    rw [Int.floor_eq_iff]
    constructor <;> norm_num
  rw [show (1 / 3 : ℚ) * 100 = 100 / 3 by norm_num,
    pyRound_eq_of_floor hf (by norm_num)]
  norm_num

theorem computeMetrics_all_eq {xs : List ℚ} {c : ℚ} (hne : xs ≠ [])
    (h : ∀ x ∈ xs, x = c) :
    computeMetrics xs =
      { VaR_95_YieldBps := round2 (c * 10000)
        YieldRangeLow_Bps := round2 (c * 10000)
        YieldRangeHigh_Bps := round2 (c * 10000)
        SimCount := SIM_COUNT } := by
  unfold computeMetrics
  rw [percentile5_all_eq hne h, listMin_all_eq hne h, listMax_all_eq hne h]

theorem simulateYieldChanges_const (env : SimEnv) (col : String) (mult d : ℚ)
    (h : ∀ k, env.draws col k = d) :
    simulateYieldChanges env col mult =
      List.replicate SIM_COUNT (env.stdev (listDiff (env.data col)) * mult * d) := by
  unfold simulateYieldChanges
  rw [List.map_congr_left
        (fun k _ =>
          (by rw [h k] :
            env.stdev (listDiff (env.data col)) * mult * env.draws col k =
              env.stdev (listDiff (env.data col)) * mult * d))]
  rw [show (fun _ : ℕ => env.stdev (listDiff (env.data col)) * mult * d) =
        Function.const ℕ (env.stdev (listDiff (env.data col)) * mult * d) from rfl]
  rw [List.map_const, List.length_range]

theorem replicate_pos_ne_nil {n : ℕ} (hn : n ≠ 0) (c : ℚ) :
    List.replicate n c ≠ [] := by
  intro h
  have h2 := congrArg List.length h
  rw [List.length_replicate, List.length_nil] at h2
  exact absurd h2 hn

theorem replicate_simCount_ne_nil (c : ℚ) :
    List.replicate SIM_COUNT c ≠ [] :=
  replicate_pos_ne_nil (by norm_num [SIM_COUNT]) c

theorem range_map_const (n : ℕ) (c : ℚ) :
    (List.range n).map (fun _ => c) = List.replicate n c := by
  rw [show (fun _ : ℕ => c) = Function.const ℕ c from rfl, List.map_const,
    List.length_range]

theorem specTenorMetrics_const (s mult d : ℚ) :
    specTenorMetrics s mult (fun _ => d) =
      { VaR_95_YieldBps := s * mult * d * 10000
        YieldRangeLow_Bps := s * mult * d * 10000
        YieldRangeHigh_Bps := s * mult * d * 10000
        SimCount := 10000 } := by
  unfold specTenorMetrics
  rw [show (fun k : ℕ => s * mult * (fun _ : ℕ => d) k) =
        (fun _ : ℕ => s * mult * d) from rfl,
    range_map_const]
  rw [percentile5_all_eq (replicate_pos_ne_nil (by norm_num) _)
        (fun x hx => List.eq_of_mem_replicate hx),
    listMin_all_eq (replicate_pos_ne_nil (by norm_num) _)
      (fun x hx => List.eq_of_mem_replicate hx),
    listMax_all_eq (replicate_pos_ne_nil (by norm_num) _)
      (fun x hx => List.eq_of_mem_replicate hx)]

theorem maybeSave_fsAvailable {V : Type} (wk : Bool) (s : MemStore V) :
    (maybeSave wk s).fsAvailable = s.fsAvailable := by
  unfold maybeSave saveMemory
  split_ifs <;> rfl

theorem applyMut_fsAvailable {V : Type} (wk : Bool) (op : MutOp V)
    (s : MemStore V) : (applyMut wk op s).fsAvailable = s.fsAvailable := by
  obtain ⟨s', he, _, _, hf⟩ := applyMut_eq_maybeSave wk op s
  rw [he, maybeSave_fsAvailable, hf]

theorem getCachedQuery_fst_of_fast {V : Type} {k : String} {s : MemStore V}
    {e : CacheEntry V} (h : lookupA s.inMemoryCache k = some e) :
    (getCachedQuery k s).1 = some e := by
  unfold getCachedQuery
  rw [h]

/-- Evaluate `simulate_bond_risk` on a one-tenor request for `"5Y"` under a
constant ambient draw stream. -/
theorem simulate_bond_risk_const_draws (dat : String → List ℚ)
    (sd : List ℚ → ℚ) (c y : ℚ) :
    simulate_bond_risk ⟨dat, sd, fun _ _ => c⟩ [("5Y", y)] "normal" none =
      .ok [("5Y", .metrics
            { VaR_95_YieldBps :=
                round2 (sd (listDiff (dat "Treasury Yield 5 Years (^FVX)")) * 1 * c * 10000)
              YieldRangeLow_Bps :=
                round2 (sd (listDiff (dat "Treasury Yield 5 Years (^FVX)")) * 1 * c * 10000)
              YieldRangeHigh_Bps :=
                round2 (sd (listDiff (dat "Treasury Yield 5 Years (^FVX)")) * 1 * c * 10000)
              SimCount := SIM_COUNT })]
        { market_regime := "normal", confidence_score := none
          risk_level := "moderate"
          guidance := "Yield risk is present but contained." } := by
  have hr : STRESS_REGIMES "normal" = some 1 := rfl
  have ht : TENOR_MAP "5Y" = some "Treasury Yield 5 Years (^FVX)" := rfl
  unfold simulate_bond_risk
  rw [hr]
  simp only [List.map_cons, List.map_nil, ht]
  rw [simulateYieldChanges_const _ _ _ c (fun _ => rfl)]
  rw [computeMetrics_all_eq (replicate_simCount_ne_nil _)
        (fun x hx => List.eq_of_mem_replicate hx)]
  rfl

/-! ## Claims -/

/-- Claim C1: the spec's freshness rule says a `get_cached_query` more than
`ttl_minutes` after `cached_at` must be a miss. The code stores
`ttl_minutes` with every entry but `get_cached_query` reads no clock and
never consults it: an entry cached at `t = 0` with `ttl_minutes = 60` is
still returned as a hit at `t = 1000` minutes, even though the freshness
predicate rejects it. -/
theorem C1_expired_entry_returned_as_hit :
    (getCachedQuery "news_q"
        (cacheQuery true 0 "news_q" (42 : ℕ) 60 (emptyStore ℕ true))).1 =
      some ⟨42, 0, 60⟩ ∧
    ¬ entryValid (1000 : ℚ) (⟨42, 0, 60⟩ : CacheEntry ℕ) := by
  exact ⟨rfl, by norm_num [entryValid]⟩

/-- Claim C2, counterexample: with `mean = 10`, `std = 2` (so
`high_threshold = 12`) and `current = 15`, the code returns
`SELL_VOLATILITY` with strength `STRONG` although `current` is not above
`1.5 × high_threshold = 18`, contradicting "strength STRONG only if
current_volatility > 1.5·high_threshold". -/
theorem C2_strength_cx :
    tradingSignal 15 10 2 = (.SELL_VOLATILITY, .STRONG) ∧
    ¬ ((15 : ℚ) > (15 / 10) * highVolThreshold 10 2) := by
  constructor
  · unfold tradingSignal highVolThreshold
    rw [if_pos (by norm_num)]
  · norm_num [highVolThreshold]

/-- Claim C2, amended: `current > mean + std` yields `SELL_VOLATILITY` with
strength unconditionally `STRONG` (the code implements no `1.5·high`
distinction); otherwise `current < mean − 0.5·std` yields `BUY_VOLATILITY`
with `MODERATE`; otherwise `HOLD` with `NEUTRAL`. -/
theorem C2_signal_branches (c m s : ℚ) :
    (c > highVolThreshold m s →
        tradingSignal c m s = (.SELL_VOLATILITY, .STRONG)) ∧
    (¬ c > highVolThreshold m s → c < m - (5 / 10) * s →
        tradingSignal c m s = (.BUY_VOLATILITY, .MODERATE)) ∧
    (¬ c > highVolThreshold m s → ¬ c < m - (5 / 10) * s →
        tradingSignal c m s = (.HOLD, .NEUTRAL)) := by
  unfold tradingSignal
  refine ⟨fun h => ?_, fun h1 h2 => ?_, fun h1 h2 => ?_⟩
  · rw [if_pos h]
  · rw [if_neg h1, if_pos h2]
  · rw [if_neg h1, if_neg h2]

/-- Witness for `C2_signal_branches` at `current = 15`, `mean = 10`,
`std = 2`. -/
theorem C2_signal_branches_witness :
    tradingSignal 15 10 2 = (.SELL_VOLATILITY, .STRONG) :=
  (C2_signal_branches 15 10 2).1 (by norm_num [highVolThreshold])

/-- Claim C3, counterexample: with `mean_volatility = 1` and
`std_volatility = 2` the code's `volatility_consistency` is `1 − 2/1 = −1`,
outside `[0,1]` — the component is not clamped below as the claim states. -/
theorem C3_consistency_cx :
    volatilityConsistency 1 2 = -1 ∧ ¬ (0 ≤ volatilityConsistency 1 2) := by
  have h : volatilityConsistency 1 2 = -1 := by
    unfold volatilityConsistency
    rw [if_pos (by norm_num)]
    norm_num
  exact ⟨h, by rw [h]; norm_num⟩

/-- Claim C3, amended: `data_completeness` (after the `min(1.0, ·)` clamp)
and `event_coverage` lie in `[0,1]`; `volatility_consistency` equals
`1 − std/mean` when `mean > 0` — at most `1` for `std ≥ 0` but possibly
negative, with no lower clamp — and the fixed neutral value `0.5` when
`mean ≤ 0`; the overall confidence is
`0.4·completeness + 0.3·coverage + 0.3·consistency`. -/
theorem C3_confidence_components (nDays years nFed : ℕ) (m s : ℚ) :
    (0 ≤ sampleConfidence nDays years ∧ sampleConfidence nDays years ≤ 1) ∧
    (0 ≤ eventCoverage nFed years ∧ eventCoverage nFed years ≤ 1) ∧
    (0 < m → volatilityConsistency m s = 1 - s / m) ∧
    (¬ 0 < m → volatilityConsistency m s = 5 / 10) ∧
    (0 ≤ s → volatilityConsistency m s ≤ 1) ∧
    overallConfidence (sampleConfidence nDays years) (eventCoverage nFed years)
        (volatilityConsistency m s) =
      (4 / 10) * sampleConfidence nDays years +
        (3 / 10) * eventCoverage nFed years +
        (3 / 10) * volatilityConsistency m s := by
  refine ⟨⟨?_, min_le_left _ _⟩, ⟨?_, min_le_left _ _⟩, fun h => ?_,
    fun h => ?_, fun hs => ?_, ?_⟩
  · exact le_min (by norm_num)
      (div_nonneg (Nat.cast_nonneg _) (by positivity))
  · exact le_min (by norm_num)
      (div_nonneg (Nat.cast_nonneg _) (by positivity))
  · unfold volatilityConsistency
    rw [if_pos h]
  · unfold volatilityConsistency
    rw [if_neg h]
  · unfold volatilityConsistency
    split_ifs with h
    · have : 0 ≤ s / m := div_nonneg hs h.le
      linarith
    · norm_num
  · unfold overallConfidence
    ring

/-- Witness for `C3_confidence_components` at `mean = 1`, `std = 2`. -/
theorem C3_confidence_components_witness :
    volatilityConsistency 1 2 = 1 - 2 / 1 :=
  (C3_confidence_components 100 5 10 1 2).2.2.1 (by norm_num)

/-- Claim C4, counterexample: `simulate_bond_risk` has no seed parameter;
with every declared argument held fixed, its output still varies with the
ambient random draw stream, so no call is reproducible by arguments alone. -/
theorem C4_no_seed_cx :
    simulate_bond_risk ⟨fun _ => [], fun _ => 1, fun _ _ => 0⟩
        [("5Y", 41 / 1000)] "normal" none ≠
      simulate_bond_risk ⟨fun _ => [], fun _ => 1, fun _ _ => 1⟩
        [("5Y", 41 / 1000)] "normal" none := by
  rw [simulate_bond_risk_const_draws, simulate_bond_risk_const_draws]
  intro h
  have h2 := congrArg firstVaR h
  simp only [firstVaR] at h2
  norm_num at h2
  rw [round2_zero, round2_ten_thousand] at h2
  norm_num at h2

/-- Claim C4, amended: the simulator accepts no seed; its output is a
function of the forecasted yields, the regime hint, the confidence score
and the ambient draw stream only — identical draw streams give exactly
identical results, while environments differing only in their draws can
give different results. -/
theorem C4_determinism_modulo_draws :
    (∀ (dat : String → List ℚ) (sd : List ℚ → ℚ) (dr dr' : String → ℕ → ℚ)
        (y : List (String × ℚ)) (r : String) (cf : Option ℚ),
        dr = dr' →
        simulate_bond_risk ⟨dat, sd, dr⟩ y r cf =
          simulate_bond_risk ⟨dat, sd, dr'⟩ y r cf) ∧
    (∃ (dat : String → List ℚ) (sd : List ℚ → ℚ) (dr dr' : String → ℕ → ℚ)
        (y : List (String × ℚ)) (r : String) (cf : Option ℚ),
        simulate_bond_risk ⟨dat, sd, dr⟩ y r cf ≠
          simulate_bond_risk ⟨dat, sd, dr'⟩ y r cf) := by
  constructor
  · intro dat sd dr dr' y r cf h
    rw [h]
  · refine ⟨fun _ => [], fun _ => 1, fun _ _ => 0, fun _ _ => 1,
      [("5Y", 41 / 1000)], "normal", none, ?_⟩
    rw [simulate_bond_risk_const_draws, simulate_bond_risk_const_draws]
    intro h
    have h2 := congrArg firstVaR h
    simp only [firstVaR] at h2
    norm_num at h2
    rw [round2_zero, round2_ten_thousand] at h2
    norm_num at h2

/-- Witness for `C4_determinism_modulo_draws`. -/
theorem C4_determinism_modulo_draws_witness :
    simulate_bond_risk ⟨fun _ => [], fun _ => 1, fun _ _ => 0⟩
        [("5Y", 41 / 1000)] "normal" none =
      simulate_bond_risk ⟨fun _ => [], fun _ => 1, fun _ _ => 0⟩
        [("5Y", 41 / 1000)] "normal" none :=
  C4_determinism_modulo_draws.1 _ _ _ _ _ _ _ rfl

/-- Claim C5, counterexample: an invalid `regime_hint` does not produce
per-tenor error entries — it aborts the whole request with the
`{"status": "error"}` dict, so the valid tenor `"5Y"` gets no result. -/
theorem C5_invalid_regime_cx :
    simulate_bond_risk envZero [("5Y", 1), ("10Y", 2)] "turbulent" none =
      SimResult.globalError
        "Invalid RegimeHint 'turbulent'. Must be one of ['calm', 'normal', 'stress']" := by
  rfl

/-- Claim C5, amended: only an invalid tenor is isolated per tenor — a
request with one invalid and one valid tenor (and a valid regime) returns
an error entry for the former and a normal metrics result for the latter —
while an invalid `regime_hint` aborts the whole request with a global
error. -/
theorem C5_tenor_isolation :
    (∀ (env : SimEnv) (y1 y2 : ℚ) (cf : Option ℚ)
        (tBad tGood col regime : String) (mult : ℚ),
        TENOR_MAP tBad = none → TENOR_MAP tGood = some col →
        STRESS_REGIMES regime = some mult →
        simulate_bond_risk env [(tBad, y1), (tGood, y2)] regime cf =
          .ok [(tBad, .err (invalidTenorMsg tBad)),
               (tGood, .metrics (computeMetrics (simulateYieldChanges env col mult)))]
            ⟨regime, cf, riskLevelOf regime, guidanceOf regime⟩) ∧
    (∀ (env : SimEnv) (y : List (String × ℚ)) (cf : Option ℚ) (regime : String),
        STRESS_REGIMES regime = none →
        simulate_bond_risk env y regime cf =
          .globalError (invalidRegimeMsg regime)) := by
  constructor
  · intro env y1 y2 cf tBad tGood col regime mult h1 h2 h3
    unfold simulate_bond_risk
    rw [h3]
    simp [h1, h2]
  · intro env y cf regime h
    unfold simulate_bond_risk
    rw [h]

/-- Witness for `C5_tenor_isolation`: invalid `"7Y"` next to valid `"5Y"`
under regime `"calm"`. -/
theorem C5_tenor_isolation_witness :
    simulate_bond_risk envZero [("7Y", 1), ("5Y", 2)] "calm" none =
      .ok [("7Y", .err (invalidTenorMsg "7Y")),
           ("5Y", .metrics (computeMetrics
              (simulateYieldChanges envZero "Treasury Yield 5 Years (^FVX)" (7 / 10))))]
        ⟨"calm", none, riskLevelOf "calm", guidanceOf "calm"⟩ :=
  C5_tenor_isolation.1 envZero 1 2 none "7Y" "5Y"
    "Treasury Yield 5 Years (^FVX)" "calm" (7 / 10) rfl rfl rfl

/-- Claim C6: every mutating operation (`add_analysis`, `cache_query`,
`add_insight`) marks the store dirty and increments
`operations_since_save`; reaching the threshold 3 triggers a flush, and
the counter resets to 0 with the dirty flag cleared only when the flush
succeeds — so with a succeeding flush, 3 mutating operations from a zero
counter leave a clean store with counter 0, a 4th leaves counter 1, and a
failing flush leaves counter 3 and the store dirty. -/
theorem C6_flush_threshold (V : Type) :
    (∀ (wk : Bool) (o : MutOp V) (t : MemStore V), t.opsSinceSave + 1 < 3 →
        (applyMut wk o t).dirty = true ∧
        (applyMut wk o t).opsSinceSave = t.opsSinceSave + 1) ∧
    (∀ (o : MutOp V) (t : MemStore V), t.opsSinceSave = 2 →
        t.fsAvailable = true →
        (applyMut true o t).dirty = false ∧
        (applyMut true o t).opsSinceSave = 0) ∧
    (∀ (o : MutOp V) (t : MemStore V), t.opsSinceSave = 2 →
        (applyMut false o t).dirty = true ∧
        (applyMut false o t).opsSinceSave = 3) ∧
    (∀ (s : MemStore V) (o1 o2 o3 o4 : MutOp V),
        s.opsSinceSave = 0 → s.fsAvailable = true →
        (applyMut true o3 (applyMut true o2 (applyMut true o1 s))).dirty = false ∧
        (applyMut true o3 (applyMut true o2 (applyMut true o1 s))).opsSinceSave = 0 ∧
        (applyMut true o4 (applyMut true o3 (applyMut true o2
            (applyMut true o1 s)))).dirty = true ∧
        (applyMut true o4 (applyMut true o3 (applyMut true o2
            (applyMut true o1 s)))).opsSinceSave = 1) := by
  have step1 : ∀ (wk : Bool) (o : MutOp V) (t : MemStore V),
      t.opsSinceSave + 1 < 3 →
      (applyMut wk o t).dirty = true ∧
      (applyMut wk o t).opsSinceSave = t.opsSinceSave + 1 := by
    intro wk o t ht
    obtain ⟨t', he, hd, hc, _⟩ := applyMut_eq_maybeSave wk o t
    rw [he, maybeSave_lt wk t' (by omega)]
    exact ⟨hd, hc⟩
  have step2 : ∀ (o : MutOp V) (t : MemStore V), t.opsSinceSave = 2 →
      t.fsAvailable = true →
      (applyMut true o t).dirty = false ∧
      (applyMut true o t).opsSinceSave = 0 := by
    intro o t ht hf
    obtain ⟨t', he, hd, hc, hfs⟩ := applyMut_eq_maybeSave true o t
    rw [he, maybeSave_ge_ok t' (by omega) hd (by rw [hfs, hf])]
    exact ⟨rfl, rfl⟩
  have step3 : ∀ (o : MutOp V) (t : MemStore V), t.opsSinceSave = 2 →
      (applyMut false o t).dirty = true ∧
      (applyMut false o t).opsSinceSave = 3 := by
    intro o t ht
    obtain ⟨t', he, hd, hc, _⟩ := applyMut_eq_maybeSave false o t
    rw [he, maybeSave_notOk]
    exact ⟨hd, by omega⟩
  refine ⟨step1, step2, step3, ?_⟩
  intro s o1 o2 o3 o4 h0 hf
  have h1 := step1 true o1 s (by omega)
  have hf1 : (applyMut true o1 s).fsAvailable = true := by
    rw [applyMut_fsAvailable, hf]
  have h2 := step1 true o2 (applyMut true o1 s) (by omega)
  have hf2 : (applyMut true o2 (applyMut true o1 s)).fsAvailable = true := by
    rw [applyMut_fsAvailable, hf1]
  have h3 := step2 o3 (applyMut true o2 (applyMut true o1 s)) (by omega) hf2
  have h4 := step1 true o4
    (applyMut true o3 (applyMut true o2 (applyMut true o1 s))) (by omega)
  exact ⟨h3.1, h3.2, h4.1, by omega⟩

/-- Witness for `C6_flush_threshold`: three inserted insights flush and
clean a fresh GCS-backed store. -/
theorem C6_flush_threshold_witness :
    (applyMut true (MutOp.insight 3) (applyMut true (MutOp.insight 2)
        (applyMut true (MutOp.insight 1) (emptyStore ℕ true)))).dirty = false :=
  ((C6_flush_threshold ℕ).2.2.2 (emptyStore ℕ true) (.insight 1) (.insight 2)
      (.insight 3) (.insight 4) rfl rfl).1

/-- Claim C7: `cache_query(k, v, ttl)` immediately followed by
`get_cached_query(k)` returns the entry holding `v` (a hit); and on a
fast-tier miss, a durable-tier `query_cache` entry is returned and
promoted into the fast in-memory tier. -/
theorem C7_cache_round_trip :
    (∀ (V : Type) (wk : Bool) (now : ℚ) (k : String) (v : V) (ttl : ℚ)
        (s : MemStore V),
        (getCachedQuery k (cacheQuery wk now k v ttl s)).1 =
          some ⟨v, now, ttl⟩) ∧
    (∀ (V : Type) (s : MemStore V) (k : String) (e : CacheEntry V),
        lookupA s.inMemoryCache k = none →
        lookupA s.memory.query_cache k = some e →
        (getCachedQuery k s).1 = some e ∧
        lookupA ((getCachedQuery k s).2).inMemoryCache k = some e) := by
  constructor
  · intro V wk now k v ttl s
    apply getCachedQuery_fst_of_fast
    unfold cacheQuery
    rw [maybeSave_inMemoryCache]
    exact lookupA_insertA_self _ _ _
  · intro V s k e h1 h2
    refine ⟨?_, ?_⟩
    · unfold getCachedQuery
      simp only [h1, h2]
    · unfold getCachedQuery
      simp only [h1, h2]
      exact lookupA_insertA_self _ _ _

/-- Witness for `C7_cache_round_trip`: promotion of the durable entry of
`storeDurable`. -/
theorem C7_cache_round_trip_witness :
    (getCachedQuery "q" storeDurable).1 = some ⟨7, 0, 60⟩ ∧
    lookupA ((getCachedQuery "q" storeDurable).2).inMemoryCache "q" =
      some ⟨7, 0, 60⟩ :=
  C7_cache_round_trip.2 ℕ storeDurable "q" ⟨7, 0, 60⟩ rfl rfl

/-- Claim C8: the `smart_query` cache key is deterministic and independent
of filter insertion order — permuting the filter items leaves the key
unchanged, since `json.dumps(filters, sort_keys=True)` canonicalizes the
item order. -/
theorem C8_key_order_independent (intent : String)
    (f1 f2 : List (String × String)) (mr : Option ℕ) (h : f1.Perm f2) :
    cacheKey intent f1 mr = cacheKey intent f2 mr := by
  unfold cacheKey jsonDumpsSorted
  rw [insertionSort_eq_of_perm h]

/-- Witness for `C8_key_order_independent`:
`key(intent, {a:1,b:2}) = key(intent, {b:2,a:1})`. -/
theorem C8_key_order_independent_witness :
    cacheKey "news" [("a", "1"), ("b", "2")] none =
      cacheKey "news" [("b", "2"), ("a", "1")] none :=
  C8_key_order_independent "news" _ _ none
    (List.Perm.swap ("b", "2") ("a", "1") [])

/-- Claim C9, counterexample: on the history `[0,1,1,0]` (whose daily
differences have sample standard deviation exactly 1) under regime
`normal` with a constant draw stream `1/30000`, the code reports
`VaR_95 = round(1/3, 2) = 0.33` bps while the claim's reference definition
gives `1/3` bps — the code rounds every basis-point value to 2 decimals,
so it does not equal the unrounded reference output. -/
theorem C9_metrics_unrounded_cx :
    IsStdev (listDiff [0, 1, 1, 0]) 1 ∧
    simulate_bond_risk envThird [("5Y", 1)] "normal" none ≠
      SimResult.ok
        [("5Y", .metrics (specTenorMetrics 1 1 (fun _ => 1 / 30000)))]
        ⟨"normal", none, "moderate", "Yield risk is present but contained."⟩ := by
  constructor
  · constructor
    · norm_num
    · show (1 : ℚ) ^ 2 = sampleVar (listDiff [0, 1, 1, 0])
      norm_num [sampleVar, listMean, listDiff]
  · rw [show envThird =
        ⟨fun _ => [0, 1, 1, 0], fun _ => 1, fun _ _ => 1 / 30000⟩ from rfl,
      simulate_bond_risk_const_draws, specTenorMetrics_const]
    intro h
    have h2 := congrArg firstVaR h
    simp only [firstVaR] at h2
    norm_num at h2
    rw [round2_one_third] at h2
    norm_num at h2

/-- Claim C9, amended: for a valid tenor and regime, with `s` the sample
standard deviation of the historical daily yield differences, the per-tenor
result equals the spec's reference computation (`sigma = s × multiplier`,
10000 zero-mean normal samples, 5th percentile and min/max in basis
points, `sim_count = 10000`) with each basis-point value additionally
rounded to 2 decimal places; the multipliers are calm 0.7, normal 1.0,
stress 1.8. -/
theorem C9_engine_refines_spec :
    (STRESS_REGIMES "calm" = some (7 / 10) ∧
      STRESS_REGIMES "normal" = some 1 ∧
      STRESS_REGIMES "stress" = some (18 / 10) ∧ SIM_COUNT = 10000) ∧
    ∀ (env : SimEnv) (tenor col regime : String) (mult s y : ℚ)
      (cf : Option ℚ),
      TENOR_MAP tenor = some col → STRESS_REGIMES regime = some mult →
      env.stdev (listDiff (env.data col)) = s →
      IsStdev (listDiff (env.data col)) s →
      simulate_bond_risk env [(tenor, y)] regime cf =
        .ok [(tenor, .metrics (roundMetrics
              (specTenorMetrics s mult (env.draws col))))]
          ⟨regime, cf, riskLevelOf regime, guidanceOf regime⟩ := by
  refine ⟨⟨rfl, rfl, rfl, rfl⟩, ?_⟩
  intro env tenor col regime mult s y cf h1 h2 h3 _
  unfold simulate_bond_risk
  simp only [h2, h1, List.map_cons, List.map_nil]
  have hm : computeMetrics (simulateYieldChanges env col mult) =
      roundMetrics (specTenorMetrics s mult (env.draws col)) := by
    simp only [computeMetrics, roundMetrics, specTenorMetrics,
      simulateYieldChanges, SIM_COUNT, h3]
  rw [hm]

/-- Witness for `C9_engine_refines_spec` on the concrete environment
`envThird`. -/
theorem C9_engine_refines_spec_witness :
    simulate_bond_risk envThird [("5Y", 1)] "normal" none =
      .ok [("5Y", .metrics (roundMetrics (specTenorMetrics 1 1
            (envThird.draws "Treasury Yield 5 Years (^FVX)"))))]
        ⟨"normal", none, riskLevelOf "normal", guidanceOf "normal"⟩ :=
  C9_engine_refines_spec.2 envThird "5Y" "Treasury Yield 5 Years (^FVX)"
    "normal" 1 1 1 none rfl rfl rfl
    ⟨by norm_num, by
      show (1 : ℚ) ^ 2 = sampleVar (listDiff [0, 1, 1, 0])
      norm_num [sampleVar, listMean, listDiff]⟩

/-- Claim C10: `get_cached_query` never touches the dirty flag, the
`operations_since_save` counter or the persisted document — a read-only
sequence of gets never triggers a flush — even though a hit mutates the
in-memory document by bumping `statistics["cache_hits"]`, which therefore
only reaches the durable tier through some later mutating operation. -/
theorem C10_reads_do_not_mutate :
    (∀ (V : Type) (ks : List String) (s : MemStore V),
        (getMany ks s).dirty = s.dirty ∧
        (getMany ks s).opsSinceSave = s.opsSinceSave ∧
        (getMany ks s).persisted = s.persisted) ∧
    (∀ (V : Type) (k : String) (s : MemStore V) (e : CacheEntry V),
        lookupA s.inMemoryCache k = some e →
        ((getCachedQuery k s).2).memory.cache_hits =
          s.memory.cache_hits + 1) := by
  constructor
  · intro V ks s
    exact getMany_frame ks s
  · intro V k s e h
    unfold getCachedQuery
    simp only [h]

/-- Witness for `C10_reads_do_not_mutate`: a hit on `storeFast` bumps the
hit counter. -/
theorem C10_reads_do_not_mutate_witness :
    ((getCachedQuery "k" storeFast).2).memory.cache_hits =
      storeFast.memory.cache_hits + 1 :=
  C10_reads_do_not_mutate.2 ℕ "k" storeFast ⟨5, 0, 60⟩ rfl

end MyAgent
